import Mathlib

/-!
Verification of the Office-PowerPoint-MCP-Server core against its
natural-language specification.

The development shallowly embeds the relevant parts of the repository:

* `src/http_server.py` — the JSON-RPC dispatcher (`handle_mcp_request`),
  the schema inferrer (`_get_tool_schema`, `_get_tool_schema_from_source`)
  and the document-serving sanitization (`serve_presentation`);
* `src/presentation_manager.py` — the local staging manager
  (`get_local_path`, `cleanup_temp`), modelled through the scratch-file
  bookkeeping of the dispatcher;
* `src/tools/presentation_tools.py` — `create_presentation` and
  `open_presentation` over the session store;
* `src/scripts/export_slide_template.py` — `sanitize_role`, `shape_role`
  and the role-deduplication loop of `export_template`.

External collaborators (the `ppt_utils` document library, the storage
adapter, the filesystem) are modelled as explicit parameters: storage is a
list of names that exist, the document library is a value of an outcome
type, and scratch-directory contents are a list of staged names.
-/

/-! ## String helpers mirroring the Python string operations used by the code -/

/-- Model of the Python substring test `pat in s`. -/
def containsSub (s pat : String) : Bool :=
  decide (pat.data <:+: s.data)

/-- Model of Python `s.endswith(suf)`: `suf` is a suffix of `s`. -/
def pyEndsWith (s suf : String) : Bool :=
  decide (suf.data <:+ s.data)

/-- `http_server.py` lines 546-547 and 573-574: force the `.pptx` extension,
`if not name.endswith('.pptx'): name = f"{name}.pptx"`. -/
def forcePptx (s : String) : String :=
  if pyEndsWith s ".pptx" then s else s ++ ".pptx"

/-- Characters of a list after the last `'/'`: the suffix of the list that
contains no slash. -/
def afterLastSlash (l : List Char) : List Char :=
  (l.reverse.takeWhile (fun c => c != '/')).reverse

/-- Model of Python `os.path.basename` on POSIX: the part of the path after
the last `'/'`. -/
def pyBasename (s : String) : String :=
  ⟨afterLastSlash s.data⟩

/-- Value of one hexadecimal digit, `none` when the character is not one. -/
def hexDigit? (c : Char) : Option Nat :=
  if '0' ≤ c ∧ c ≤ '9' then some (c.toNat - '0'.toNat)
  else if 'a' ≤ c ∧ c ≤ 'f' then some (c.toNat - 'a'.toNat + 10)
  else if 'A' ≤ c ∧ c ≤ 'F' then some (c.toNat - 'A'.toNat + 10)
  else none

/-- Model of Python `urllib.parse.unquote` at byte level: `%xy` with two hex
digits becomes the character of code `16*x + y`; a `%` not followed by two
hex digits is kept literally. -/
def pdAux : List Char → List Char
  | '%' :: a :: b :: rest =>
    match hexDigit? a, hexDigit? b with
    | some x, some y => Char.ofNat (16 * x + y) :: pdAux rest
    | _, _ => '%' :: pdAux (a :: b :: rest)
  | c :: rest => c :: pdAux rest
  | [] => []

/-- String-level percent decoding (model of `unquote`). -/
def percentDecode (s : String) : String :=
  ⟨pdAux s.data⟩

/-! ## `serve_presentation` filename sanitization (`http_server.py` 801-819)

The handler receives the raw filename string from the URL, applies
`unquote`, then `os.path.basename`, then forces the `.pptx` extension, and
only then consults storage. -/

/-- The name `serve_presentation` consults against storage for a raw
filename string (`http_server.py` lines 804-810). -/
def serveFilename (raw : String) : String :=
  forcePptx (pyBasename (percentDecode raw))

/-! ## Dispatcher (`http_server.py`, `MCPHTTPHandler.handle_mcp_request`)

The dispatcher is embedded as a function of the request together with the
behaviour of its external collaborators, passed in a `DispatchCtx`:

* `registry` — the tool names present in `TOOL_REGISTRY`;
* `storage` — the names for which `storage.presentation_exists` is true;
* `toolRaises` — `some msg` when the invoked tool raises with message
  `msg`, `none` when the invocation returns normally;
* `toolWritesFile` — whether a normally-returning tool leaves a file at
  the staged `local_path` that did not exist before the call;
* `uploadOk` — whether `manager.save_presentation` (the storage upload
  called at lines 647 and 732, outside any inner `try`) returns normally;
* `autoSaveOk` — whether the auto-save block guarded by its own
  `try/except` (lines 691-719) completes normally;
* `autoSaveBound` — whether the session targeted by auto-save is bound in
  `_presentation_files` and `presentations` (line 684-686).

Scratch-directory contents are tracked as the list of staged file names:
`PresentationManager.get_local_path` downloads into
`os.path.join(self.temp_dir, filename)`, so a staged file is identified by
its (extension-normalized) name. -/

structure DispatchCtx where
  registry : List String
  storage : List String
  toolRaises : Option String
  toolWritesFile : Bool
  uploadOk : Bool
  autoSaveOk : Bool
  autoSaveBound : Bool
deriving DecidableEq, Repr

/-- A JSON-RPC response envelope: a success result (recording whether a
download URL was attached to it) or an error with code and message. -/
inductive RpcResp where
  | result (hasDownloadUrl : Bool)
  | rpcError (code : Int) (msg : String)
deriving DecidableEq, Repr

/-- Whether a response is an error envelope. -/
def RpcResp.isError : RpcResp → Bool
  | .result _ => false
  | .rpcError _ _ => true

/-- Outcome of handling one request: the response, whether the tool
callable was actually invoked, and the scratch-directory contents after
the terminal step. -/
structure DispatchOut where
  resp : RpcResp
  invoked : Bool
  scratchAfter : List String
deriving DecidableEq, Repr

/-- The `modification_tools` allow-list, `http_server.py` lines 673-680. -/
def modification_tools : List String :=
  ["add_slide", "manage_text", "manage_image", "add_table", "format_table_cell",
   "add_shape", "add_chart", "update_chart_data", "apply_professional_design",
   "apply_picture_effects", "manage_fonts", "apply_slide_template",
   "create_slide_from_template", "populate_placeholder", "add_bullet_points",
   "manage_hyperlinks", "add_connector", "manage_slide_masters",
   "manage_slide_transitions", "optimize_slide_text"]

/-- The creation heuristic, `http_server.py` line 550:
`create_if_missing = 'create' in tool_name or 'add' in tool_name or
'from_template' in tool_name`. -/
def create_if_missing (toolName : String) : Bool :=
  containsSub toolName "create" || containsSub toolName "add" ||
    containsSub toolName "from_template"

/-- Result of the `file_path` rewriting stage (lines 540-566): either an
early error response, or the staged logical name (when a `file_path`
argument was present), whether a file already exists at that local path
(it does when the document was downloaded from storage), and the scratch
files created so far. -/
def stageFilePath (ctx : DispatchCtx) (toolName : String)
    (filePath? : Option String) :
    Except DispatchOut (Option String × Bool × List String) :=
  match filePath? with
  | none => .ok (none, false, [])
  | some fp =>
    let fb := forcePptx (pyBasename fp)
    if ctx.storage.contains fb then
      -- `get_local_path` downloads the document into the scratch dir
      .ok (some fb, true, [fb])
    else if create_if_missing toolName then
      -- `get_local_path` allocates a fresh path without creating a file
      .ok (some fb, false, [])
    else
      -- `FileNotFoundError` caught, creation not implied: early -32602
      .error ⟨.rpcError (-32602) ("Presentation " ++ fb ++ " not found"),
              false, []⟩

/-- The `template_path` resolution stage (lines 569-606): when the
(extension-normalized) template name exists in storage it is downloaded
into the scratch directory; otherwise the candidate directories are
searched, which stages nothing. -/
def stageTemplatePath (ctx : DispatchCtx) (templatePath? : Option String)
    (scratch : List String) : List String :=
  match templatePath? with
  | none => scratch
  | some tp =>
    let tf := forcePptx (pyBasename tp)
    if ctx.storage.contains tf then
      if scratch.contains tf then scratch else scratch ++ [tf]
    else scratch

/-- The unconditional `finally` cleanup (lines 761-764): if a `file_path`
local path was allocated and a file exists there, remove it from the
scratch directory. Removal by name is a no-op when no such file exists. -/
def finallyCleanup (localPath? : Option String) (scratch : List String) :
    List String :=
  match localPath? with
  | none => scratch
  | some fb => scratch.filter (fun n => n != fb)

/-- Invocation and post-processing (lines 608-777). The invocation's
exception is converted to a -32603 error (line 750); on normal return the
`save_presentation` upload (636-670), the auto-save block (672-719, whose
failures are swallowed by its inner `except`) and the `file_path`
re-upload (721-741) run in order, the two uploads outside any inner
`try`, so their exceptions propagate to the handler at line 750. The
`finally` cleanup runs on every path. -/
def invokeAndFinish (ctx : DispatchCtx) (toolName : String)
    (localPath? : Option String) (scratch : List String) : DispatchOut :=
  match ctx.toolRaises with
  | some msg =>
    ⟨.rpcError (-32603) ("Error calling tool " ++ toolName ++ ": " ++ msg),
     true, finallyCleanup localPath? scratch⟩
  | none =>
    -- a normally-returning tool may have written the staged local path
    let scratch1 :=
      match localPath? with
      | some fb =>
        if ctx.toolWritesFile && !scratch.contains fb then scratch ++ [fb]
        else scratch
      | none => scratch
    let localExists :=
      match localPath? with
      | some fb => scratch1.contains fb
      | none => false
    if toolName = "save_presentation" && localPath?.isSome && localExists then
      if ctx.uploadOk then
        ⟨.result true, true, finallyCleanup localPath? scratch1⟩
      else
        ⟨.rpcError (-32603)
          ("Error calling tool " ++ toolName ++ ": upload failed"),
         true, finallyCleanup localPath? scratch1⟩
    else
      let autoSaved := modification_tools.contains toolName &&
        ctx.autoSaveBound && ctx.autoSaveOk
      if localPath?.isSome && localExists && !(toolName = "save_presentation")
      then
        if ctx.uploadOk then
          ⟨.result true, true, finallyCleanup localPath? scratch1⟩
        else
          ⟨.rpcError (-32603)
            ("Error calling tool " ++ toolName ++ ": upload failed"),
           true, finallyCleanup localPath? scratch1⟩
      else
        ⟨.result autoSaved, true, finallyCleanup localPath? scratch1⟩

/-- The `tools/call` branch of `handle_mcp_request` (lines 514-777):
registry lookup, `file_path` rewrite, `template_path` resolution,
invocation and post-processing. -/
def handleToolsCall (ctx : DispatchCtx) (toolName : String)
    (filePath? templatePath? : Option String) : DispatchOut :=
  if !ctx.registry.contains toolName then
    ⟨.rpcError (-32601) ("Tool not found: " ++ toolName), false, []⟩
  else
    match stageFilePath ctx toolName filePath? with
    | .error out => out
    | .ok (localPath?, _, scratch0) =>
      let scratch := stageTemplatePath ctx templatePath? scratch0
      invokeAndFinish ctx toolName localPath? scratch

/-- The method dispatch of `handle_mcp_request` (lines 309-787):
`initialize` and `tools/list` answer with fixed/derived results,
`tools/call` runs the tool-call pipeline, and any other method is a
-32601 error. -/
def handle_mcp_request (ctx : DispatchCtx) (method toolName : String)
    (filePath? templatePath? : Option String) : DispatchOut :=
  if method = "initialize" then ⟨.result false, false, []⟩
  else if method = "tools/list" then ⟨.result false, false, []⟩
  else if method = "tools/call" then
    handleToolsCall ctx toolName filePath? templatePath?
  else ⟨.rpcError (-32601) ("Method not found: " ++ method), false, []⟩

/-! ## Schema inferrer (`http_server.py`, `_get_tool_schema` 1095-1295 and
`_get_tool_schema_from_source` 848-1093)

Only the computation of the `required` set is embedded; it is the part the
claims are about. The signature-based path sees, per parameter, its name
and whether it carries a default value; the source-parse path sees the
positional argument list of the `ast.FunctionDef` together with the length
of its `defaults` list. -/

/-- A parameter as seen by `inspect.signature`: its name and whether its
`default` differs from `inspect.Parameter.empty`. -/
structure SigParam where
  name : String
  hasDefault : Bool
deriving DecidableEq, Repr

/-- The `required` list built by `_get_tool_schema` (lines 1207-1285): the
loop skips `self` and appends the parameter name exactly when
`param.default == inspect.Parameter.empty`. -/
def requiredFromSignature : List SigParam → List String
  | [] => []
  | p :: rest =>
    if p.name = "self" then requiredFromSignature rest
    else if p.hasDefault then requiredFromSignature rest
    else p.name :: requiredFromSignature rest

/-- The `required` list built by `_get_tool_schema_from_source`
(lines 971-987): enumerate the arguments, skip `self`, and mark required
iff `i >= num_args - num_defaults` is false. -/
def requiredFromSourceAux (numArgs numDefaults : Nat) :
    Nat → List String → List String
  | _, [] => []
  | i, a :: rest =>
    if a = "self" then requiredFromSourceAux numArgs numDefaults (i + 1) rest
    else if numArgs - numDefaults ≤ i then
      requiredFromSourceAux numArgs numDefaults (i + 1) rest
    else a :: requiredFromSourceAux numArgs numDefaults (i + 1) rest

/-- Entry point of the source-parse required computation. -/
def requiredFromSource (args : List String) (numDefaults : Nat) :
    List String :=
  requiredFromSourceAux args.length numDefaults 0 args

/-- Builds the signature view of a positionally-described parameter list:
in a Python `ast.FunctionDef` the `defaults` list aligns with the last
`numDefaults` arguments, so argument `i` has a default iff
`numArgs - numDefaults ≤ i`. -/
def sigParamsOfSource (numArgs numDefaults : Nat) :
    Nat → List String → List SigParam
  | _, [] => []
  | i, a :: rest =>
    ⟨a, decide (numArgs - numDefaults ≤ i)⟩ ::
      sigParamsOfSource numArgs numDefaults (i + 1) rest

/-! ## Session store (`src/tools/presentation_tools.py`)

The `presentations` dict is embedded as an association list preserving
Python dict semantics: assignment to an existing key updates it in place,
assignment to a fresh key appends it, and `len` is the number of keys.

The document library `ppt_utils` is not part of `src/`. Modelled from the
spec: the document manipulation operations are "an opaque set of named
functions" (spec §1) whose creation operation yields an empty in-memory
document and whose `add_slide` appends one slide; they are modelled as
total functions, and the fallible `open_presentation` library call is a
parameter of outcome type. -/

structure Pres where
  slides : Nat
deriving DecidableEq, Repr

/-- Modelled from the spec: `ppt_utils.create_presentation` (the document
library is out of scope, spec §1) returns a fresh document with no
slides. -/
def pptCreatePresentation : Pres := ⟨0⟩

/-- Modelled from the spec: `ppt_utils.add_slide` adds one slide to the
in-memory document handle. -/
def pptAddSlide (p : Pres) : Pres := ⟨p.slides + 1⟩

/-- Python `key in dict`, over dicts embedded as association lists in
insertion order. -/
def pyDictHasKey {β : Type} (s : List (String × β)) (k : String) : Bool :=
  s.any (fun kv => kv.1 = k)

/-- Python `dict[key] = value`: update in place when the key is present,
append otherwise (dicts preserve insertion order). -/
def pyDictSet {β : Type} (s : List (String × β)) (k : String) (v : β) :
    List (String × β) :=
  if pyDictHasKey s k then
    s.map (fun kv => if kv.1 = k then (k, v) else kv)
  else s ++ [(k, v)]

/-- Python `dict[key]` / `dict.get(key)`: the binding of a key. -/
def pyDictGet? {β : Type} (s : List (String × β)) (k : String) : Option β :=
  (s.find? (fun kv => kv.1 = k)).map (fun kv => kv.2)

/-- The process-wide session store together with the current-session
pointer. -/
abbrev Store := List (String × Pres)

/-- Python `key in presentations`. -/
def storeHasKey (s : Store) (k : String) : Bool :=
  pyDictHasKey s k

/-- Python `presentations[id] = pres`. -/
def dictInsert (s : Store) (k : String) (v : Pres) : Store :=
  pyDictSet s k v

/-- Lookup of a session's handle. -/
def storeLookup (s : Store) (k : String) : Option Pres :=
  pyDictGet? s k

/-- The generated identifier, `presentation_tools.py` lines 47 and 194:
`f"presentation_{len(presentations) + 1}"`. -/
def genId (s : Store) : String :=
  "presentation_" ++ Nat.repr (s.length + 1)

/-- Session-level state: the `presentations` dict plus the
current-presentation pointer. -/
structure SessionState where
  store : Store
  current : Option String
deriving DecidableEq, Repr

/-- Python truthiness of an optional string argument: `None` and the
empty string are falsy, any other string is truthy. Used wherever the
source tests an argument with a bare `if arg:` / `if a or b:` rather than
`if arg is None:`. -/
def pyTruthy : Option String → Bool
  | none => false
  | some s => !(s = "")

/-- Arguments of `create_presentation` that the embedding tracks
(`slide_layout_index` only selects the layout inside the opaque document
library and is dropped). -/
structure CreateArgs where
  id? : Option String
  file_path? : Option String
  title? : Option String
  subtitle? : Option String
  set_as_current : Bool
  auto_save : Bool
deriving DecidableEq, Repr

/-- The result dict of `create_presentation`
(`presentation_tools.py` lines 107-130). -/
structure CreateResult where
  presentation_id : String
  slide_count : Nat
  title_applied : Bool
  subtitle_applied : Bool
  saved : Bool
deriving DecidableEq, Repr

/-- `create_presentation` (`presentation_tools.py` lines 20-130). The
stored handle is mutated in place by the later slide addition, so the
embedding stores the final document. The id default is an `is None` test
(hence `getD`), while the title/subtitle slide block (`if title or
subtitle:`, line 62), its inner `if title:` / `if subtitle:` guards and
the save guard (`if auto_save and file_path:`, line 91) are Python
truthiness tests, so an empty string behaves like an absent argument
there. The opaque library operations are modelled as total (see above),
hence the `try/except`-guarded title and subtitle blocks succeed whenever
attempted. -/
def create_presentation (st : SessionState) (args : CreateArgs) :
    CreateResult × SessionState :=
  let id := args.id?.getD (genId st.store)
  let pres0 := pptCreatePresentation
  let withSlide := pyTruthy args.title? || pyTruthy args.subtitle?
  let pres := if withSlide then pptAddSlide pres0 else pres0
  let title_applied := pyTruthy args.title?
  let subtitle_applied := pyTruthy args.subtitle?
  let store' := dictInsert st.store id pres
  let current' := if args.set_as_current then some id else st.current
  let saved := args.auto_save && pyTruthy args.file_path?
  (⟨id, pres.slides, title_applied, subtitle_applied, saved⟩,
   ⟨store', current'⟩)

/-- The result dict of `open_presentation`: either a dict with an
`"error"` key, or the success dict of lines 199-203. -/
inductive OpenOutcome where
  | error (msg : String)
  | opened (presentation_id : String) (slide_count : Nat) (message : String)
deriving DecidableEq, Repr

/-- Whether an `open_presentation` result dict carries an `"error"` key. -/
def OpenOutcome.isError : OpenOutcome → Bool
  | .error _ => true
  | .opened _ _ _ => false

/-- `open_presentation` (`presentation_tools.py` lines 175-203).
`fileExists` stands for `os.path.exists(file_path)` and `openResult` for
the outcome of the library call `ppt_utils.open_presentation` (normal
return of a handle, or an exception message). -/
def open_presentation (st : SessionState) (fileExists : Bool)
    (openResult : Except String Pres) (file_path : String)
    (id? : Option String) : OpenOutcome × SessionState :=
  if !fileExists then
    (.error ("File not found: " ++ file_path), st)
  else
    match openResult with
    | .error e => (.error ("Failed to open presentation: " ++ e), st)
    | .ok pres =>
      let id := id?.getD (genId st.store)
      (.opened id pres.slides
        ("Opened presentation from " ++ file_path ++ " with ID: " ++ id),
       ⟨dictInsert st.store id pres, st.current⟩)

/-! ## Template export (`src/scripts/export_slide_template.py`)

Only the role computation is embedded: `shape_to_element` copies
`shape_role`'s result into the element's `role` field, and the
deduplication loop of `export_template` (lines 112-121) rewrites those
roles; geometry and styling do not influence them. A shape is represented
by the attributes `shape_role` reads: its name and the textual form of its
placeholder type (`none` when the shape has no placeholder format or the
type is falsy). -/

structure PShape where
  name : String
  placeholderType : Option String
deriving DecidableEq, Repr

/-- Model of Python `str.lower` on one character (ASCII range). -/
def pyLowerChar (c : Char) : Char :=
  if 'A' ≤ c ∧ c ≤ 'Z' then Char.ofNat (c.toNat + 32) else c

/-- Model of Python `str.strip()`: drop leading and trailing whitespace. -/
def pyStrip (l : List Char) : List Char :=
  ((l.dropWhile (fun c => c.isWhitespace)).reverse.dropWhile
    (fun c => c.isWhitespace)).reverse

/-- The characters `sanitize_role` replaces with underscores
(`export_slide_template.py` line 26); the brace characters are written by
code point. -/
def roleSpecials : List Char :=
  [' ', '-', '.', '(', ')', '[', ']', Char.ofNat 123, Char.ofNat 125,
   '#', '%']

/-- Small-step form of the `while "__" in base: base = base.replace("__",
"_")` loop (line 29-30): its fixpoint collapses each run of underscores to
a single one. -/
def collapseUnderscores : List Char → List Char
  | [] => []
  | [c] => [c]
  | c :: d :: rest =>
    if c = '_' ∧ d = '_' then collapseUnderscores (d :: rest)
    else c :: collapseUnderscores (d :: rest)

/-- Python `base.strip("_")`: drop leading and trailing underscores. -/
def stripUnderscores (l : List Char) : List Char :=
  ((l.dropWhile (fun c => c == '_')).reverse.dropWhile
    (fun c => c == '_')).reverse

/-- `sanitize_role` (`export_slide_template.py` lines 23-32): fall back
when the name is empty, strip and lowercase, replace the special
characters by underscores, keep only alphanumerics and underscores,
collapse runs of underscores, strip underscores, and fall back again when
nothing remains. -/
def sanitize_role (name fallback : String) : String :=
  let base0 := if name = "" then fallback else name
  let base1 := (pyStrip base0.data).map pyLowerChar
  let base2 := base1.map (fun c => if roleSpecials.contains c then '_' else c)
  let base3 := base2.filter (fun c => c.isAlphanum || c == '_')
  let base4 := stripUnderscores (collapseUnderscores base3)
  if base4 = [] then fallback else ⟨base4⟩

/-- Python `str(t).split(".")[-1]`: the part after the last dot. -/
def afterLastDot (s : String) : String :=
  ⟨(s.data.reverse.takeWhile (fun c => c != '.')).reverse⟩

/-- `shape_role` (`export_slide_template.py` lines 35-52): keyword
detection on the lowered shape name, then placeholder-type
sanitization, then name sanitization, with fallback `shape_<idx>`. -/
def shape_role (s : PShape) (idx : Nat) : String :=
  let lowered : String := ⟨s.name.data.map pyLowerChar⟩
  if containsSub lowered "title" then "title"
  else if containsSub lowered "subtitle" then "subtitle"
  else if containsSub lowered "content" then "content"
  else if containsSub lowered "picture" || containsSub lowered "image" then
    "hero_image"
  else
    match s.placeholderType with
    | some t => sanitize_role (afterLastDot t) ("shape_" ++ Nat.repr idx)
    | none => sanitize_role s.name ("shape_" ++ Nat.repr idx)

/-- Python `seen_roles.get(role, 0)`. -/
def seenGet (seen : List (String × Nat)) (r : String) : Nat :=
  (pyDictGet? seen r).getD 0

/-- Python `seen_roles[role] = n`. -/
def seenSet (seen : List (String × Nat)) (r : String) (n : Nat) :
    List (String × Nat) :=
  pyDictSet seen r n

/-- The role-deduplication loop of `export_template` (lines 113-121): a
role seen `counter` times before is renamed `f"{role}_{counter+1}"` when
`counter` is nonzero, and the counter is incremented. -/
def dedupRoles (seen : List (String × Nat)) : List String → List String
  | [] => []
  | r :: rest =>
    let counter := seenGet seen r
    let r' := if counter ≠ 0 then r ++ "_" ++ Nat.repr (counter + 1) else r
    r' :: dedupRoles (seenSet seen r (counter + 1)) rest

/-- The role values of the elements list `export_template` produces for a
slide with the given shapes, in order (`enumerate(slide.shapes, start=1)`
feeds `shape_to_element`, whose `role` is `shape_role shape idx`). -/
def exportRoles (shapes : List PShape) : List String :=
  dedupRoles [] (shapes.mapIdx (fun i s => shape_role s (i + 1)))

/-- Declarative description of the deduplication: the element's final role
is its base role when no earlier element has the same base role, and
otherwise the base role suffixed with `_<c+1>` where `c` is the number of
earlier elements with that base role. `pre` is the list of base roles
already processed. -/
def dedupSpec (pre : List String) : List String → List String
  | [] => []
  | r :: rest =>
    (if pre.count r = 0 then r
     else r ++ "_" ++ Nat.repr (pre.count r + 1)) :: dedupSpec (pre ++ [r]) rest

/-! ## Helper lemmas -/

theorem mem_afterLastSlash {c : Char} {l : List Char}
    (h : c ∈ afterLastSlash l) : c ≠ '/' := by
  unfold afterLastSlash at h
  rw [List.mem_reverse] at h
  have hp := List.mem_takeWhile_imp h
  simpa using hp

theorem find?_update_self {β : Type} (k : String) (v : β) :
    ∀ s : List (String × β), pyDictHasKey s k = true →
      (s.map (fun kv => if kv.1 = k then (k, v) else kv)).find?
        (fun kv => kv.1 = k) = some (k, v) := by
  intro s
  induction s with
  | nil => intro h; simp [pyDictHasKey] at h
  | cons kv rest ih =>
    intro h
    by_cases hk : kv.1 = k
    · simp [List.find?, hk]
    · have h' : pyDictHasKey rest k = true := by
        simp [pyDictHasKey] at h ⊢
        rcases h with h | h
        · exact absurd h hk
        · exact h
      simp [List.find?, hk, ih h']

theorem find?_update_ne {β : Type} (k k' : String) (v : β) (hne : k' ≠ k) :
    ∀ s : List (String × β),
      (s.map (fun kv => if kv.1 = k then (k, v) else kv)).find?
        (fun kv => kv.1 = k') = s.find? (fun kv => kv.1 = k') := by
  intro s
  induction s with
  | nil => rfl
  | cons kv rest ih =>
    by_cases hk : kv.1 = k
    · have hd1 : (decide (((k, v) : String × β).1 = k') : Bool) = false := by
        simp only [decide_eq_false_iff_not]
        exact fun hkk => hne hkk.symm
      have hd2 : (decide (kv.1 = k') : Bool) = false := by
        simp only [decide_eq_false_iff_not, hk]
        exact fun hkk => hne hkk.symm
      simp only [List.map_cons, if_pos hk, List.find?, hd1, hd2, ih]
    · by_cases hk' : kv.1 = k'
      · have hd : (decide (kv.1 = k') : Bool) = true := by simp [hk']
        simp only [List.map_cons, if_neg hk, List.find?, hd]
      · have hd : (decide (kv.1 = k') : Bool) = false := by simp [hk']
        simp only [List.map_cons, if_neg hk, List.find?, hd, ih]

theorem pyDictGet?_set_self {β : Type} (s : List (String × β)) (k : String)
    (v : β) : pyDictGet? (pyDictSet s k v) k = some v := by
  unfold pyDictSet
  by_cases h : pyDictHasKey s k = true
  · rw [if_pos h]
    unfold pyDictGet?
    rw [find?_update_self k v s h]
    rfl
  · rw [if_neg h]
    unfold pyDictGet?
    rw [List.find?_append]
    have hfind : s.find? (fun kv : String × β => kv.1 = k) = none := by
      rw [List.find?_eq_none]
      intro kv hmem
      simp only [pyDictHasKey, List.any_eq_true] at h
      simp only [decide_eq_true_eq]
      exact fun hc => h ⟨kv, hmem, by simpa using hc⟩
    rw [hfind]
    have hd : (decide (((k, v) : String × β).1 = k) : Bool) = true := by simp
    simp [List.find?, hd]

theorem pyDictGet?_set_ne {β : Type} (s : List (String × β)) (k k' : String)
    (v : β) (hne : k' ≠ k) :
    pyDictGet? (pyDictSet s k v) k' = pyDictGet? s k' := by
  unfold pyDictSet
  by_cases h : pyDictHasKey s k = true
  · rw [if_pos h]
    unfold pyDictGet?
    rw [find?_update_ne k k' v hne s]
  · rw [if_neg h]
    unfold pyDictGet?
    rw [List.find?_append]
    have hd : (decide (((k, v) : String × β).1 = k') : Bool) = false := by
      simp only [decide_eq_false_iff_not]
      exact fun hkk => hne hkk.symm
    have h2 : List.find? (fun kv : String × β => kv.1 = k') [(k, v)]
        = none := by
      simp only [List.find?, hd]
    rw [h2]
    cases s.find? (fun kv : String × β => kv.1 = k') <;> rfl

theorem pyDictSet_map_fst {β : Type} (s : List (String × β)) (k : String)
    (v : β) :
    (pyDictSet s k v).map Prod.fst =
      if pyDictHasKey s k then s.map Prod.fst
      else s.map Prod.fst ++ [k] := by
  unfold pyDictSet
  by_cases h : pyDictHasKey s k = true
  · rw [if_pos h, if_pos h, List.map_map]
    apply List.map_congr_left
    intro kv _
    by_cases hk : kv.1 = k
    · simp [Function.comp, hk]
    · simp [Function.comp, hk]
  · rw [if_neg h, if_neg h, List.map_append]
    rfl

theorem not_mem_finallyCleanup (fb : String) (s : List String) :
    fb ∉ finallyCleanup (some fb) s := by
  unfold finallyCleanup
  intro h
  have := List.mem_filter.1 h
  simp at this

theorem requiredFromSourceAux_eq_signature (n d : Nat) :
    ∀ (args : List String) (i : Nat),
      requiredFromSourceAux n d i args =
        requiredFromSignature (sigParamsOfSource n d i args) := by
  intro args
  induction args with
  | nil => intro i; rfl
  | cons a rest ih =>
    intro i
    unfold requiredFromSourceAux sigParamsOfSource requiredFromSignature
    by_cases hs : a = "self"
    · simp only [if_pos hs, ih]
    · simp only [if_neg hs]
      by_cases hd : n - d ≤ i
      · simp only [if_pos hd, decide_eq_true hd, if_pos, ih]
      · simp only [if_neg hd, decide_eq_false hd, ih]
        rw [if_neg]
        simp

theorem seenGet_seenSet_self (seen : List (String × Nat)) (r : String)
    (n : Nat) : seenGet (seenSet seen r n) r = n := by
  unfold seenGet seenSet
  rw [pyDictGet?_set_self]
  rfl

theorem seenGet_seenSet_ne (seen : List (String × Nat)) (r x : String)
    (n : Nat) (h : x ≠ r) : seenGet (seenSet seen r n) x = seenGet seen x := by
  unfold seenGet seenSet
  rw [pyDictGet?_set_ne seen r x n h]

theorem dedupRoles_eq_spec :
    ∀ (roles : List String) (seen : List (String × Nat)) (pre : List String),
      (∀ r, seenGet seen r = pre.count r) →
      dedupRoles seen roles = dedupSpec pre roles := by
  intro roles
  induction roles with
  | nil => intro seen pre _; rfl
  | cons r rest ih =>
    intro seen pre hinv
    have hc : seenGet seen r = pre.count r := hinv r
    have htail : ∀ x, seenGet (seenSet seen r (seenGet seen r + 1)) x =
        (pre ++ [r]).count x := by
      intro x
      by_cases hx : x = r
      · subst hx
        rw [seenGet_seenSet_self, hc, List.count_append]
        simp
      · rw [seenGet_seenSet_ne seen r x _ hx, hinv x, List.count_append]
        simp [List.count_singleton, hx]
    simp only [dedupRoles, dedupSpec]
    rw [hc] at htail ⊢
    rw [ih (seenSet seen r (pre.count r + 1)) (pre ++ [r]) htail]
    by_cases h0 : pre.count r = 0
    · simp [h0]
    · simp [h0]

/-! ## Claim theorems -/

/-- C6: for every filename string supplied to the document-serving GET
endpoint, the name consulted against storage is the basename of the
decoded input with the `.pptx` extension forced; in particular it contains
no path separator, so no request can read a file outside the storage
namespace via path components. -/
theorem c6_serve_filename_sanitized (raw : String) :
    '/' ∉ (serveFilename raw).data ∧
      ".pptx".data <:+ (serveFilename raw).data ∧
      serveFilename raw = forcePptx (pyBasename (percentDecode raw)) := by
  refine ⟨?_, ?_, rfl⟩ <;> unfold serveFilename forcePptx
  · by_cases h : pyEndsWith (pyBasename (percentDecode raw)) ".pptx" = true
    · rw [if_pos h]
      intro hc
      exact absurd rfl (mem_afterLastSlash hc)
    · rw [if_neg h, String.data_append]
      intro hc
      rcases List.mem_append.1 hc with h1 | h2
      · exact absurd rfl (mem_afterLastSlash h1)
      · exact absurd h2 (by decide)
  · by_cases h : pyEndsWith (pyBasename (percentDecode raw)) ".pptx" = true
    · rw [if_pos h]
      unfold pyEndsWith at h
      exact of_decide_eq_true h
    · rw [if_neg h, String.data_append]
      exact List.suffix_append _ _

/-- C4: the signature-based schema's `required` list is exactly the list
of non-`self` parameters lacking a default, and the source-parse fallback,
which decides requiredness positionally by `i < len(args) - len(defaults)`,
computes the same list as the signature path applied to the positionally
derived default flags. -/
theorem c4_required_set_characterization :
    (∀ ps : List SigParam,
      requiredFromSignature ps =
        (ps.filter (fun p => !(decide (p.name = "self")) && !p.hasDefault)).map
          (fun p => p.name)) ∧
    (∀ (args : List String) (d : Nat),
      requiredFromSource args d =
        requiredFromSignature (sigParamsOfSource args.length d 0 args)) := by
  constructor
  · intro ps
    induction ps with
    | nil => rfl
    | cons p rest ih =>
      unfold requiredFromSignature
      by_cases hs : p.name = "self"
      · simp [List.filter_cons, hs, ih]
      · by_cases hd : p.hasDefault = true
        · simp [List.filter_cons, hs, hd, ih]
        · have hd' : p.hasDefault = false := by
            cases hx : p.hasDefault
            · rfl
            · exact absurd hx hd
          simp [List.filter_cons, hs, hd', ih]
  · intro args d
    exact requiredFromSourceAux_eq_signature args.length d args 0

/-- C1: a `tools/call` whose `file_path` names a document absent from
storage, for a tool whose name does not match the creation heuristic,
terminates before invoking the tool with a -32602 error whose message
mentions the extension-normalized filename. -/
theorem c1_missing_not_creatable_rejected (ctx : DispatchCtx)
    (toolName fp : String) (tp? : Option String)
    (hreg : toolName ∈ ctx.registry)
    (habsent : forcePptx (pyBasename fp) ∉ ctx.storage)
    (hheur : create_if_missing toolName = false) :
    handle_mcp_request ctx "tools/call" toolName (some fp) tp? =
      ⟨.rpcError (-32602)
        ("Presentation " ++ forcePptx (pyBasename fp) ++ " not found"),
       false, []⟩ ∧
    (forcePptx (pyBasename fp)).data <:+:
      ("Presentation " ++ forcePptx (pyBasename fp) ++ " not found").data := by
  constructor
  · simp [handle_mcp_request, handleToolsCall, stageFilePath, hreg, habsent,
      hheur]
  · rw [String.data_append, String.data_append]
    exact List.infix_append _ _ _

/-- C1 witness: `open_presentation` on an absent `missing.pptx` with an
otherwise-empty storage yields the -32602 response. -/
theorem c1_witness :
    handle_mcp_request
        ⟨["open_presentation"], [], none, false, true, true, false⟩
        "tools/call" "open_presentation" (some "missing.pptx") none =
      ⟨.rpcError (-32602) ("Presentation " ++ forcePptx
        (pyBasename "missing.pptx") ++ " not found"), false, []⟩ :=
  (c1_missing_not_creatable_rejected
    ⟨["open_presentation"], [], none, false, true, true, false⟩
    "open_presentation" "missing.pptx" none (by decide) (by decide) rfl).1

/-- C5: an unknown tool name, and an unknown method, each produce a -32601
error without invoking anything. -/
theorem c5_unknown_tool_or_method (ctx : DispatchCtx)
    (toolName method : String) (fp tp : Option String)
    (hTool : toolName ∉ ctx.registry)
    (hM1 : method ≠ "initialize") (hM2 : method ≠ "tools/list")
    (hM3 : method ≠ "tools/call") :
    handle_mcp_request ctx "tools/call" toolName fp tp =
      ⟨.rpcError (-32601) ("Tool not found: " ++ toolName), false, []⟩ ∧
    handle_mcp_request ctx method toolName fp tp =
      ⟨.rpcError (-32601) ("Method not found: " ++ method), false, []⟩ := by
  constructor
  · simp [handle_mcp_request, handleToolsCall, hTool]
  · simp [handle_mcp_request, hM1, hM2, hM3]

/-- C5 witness: the unknown tool `not_a_tool` and the unknown method
`foo/bar` are both rejected with -32601. -/
theorem c5_witness :
    handle_mcp_request
        ⟨["create_presentation"], [], none, false, true, true, false⟩
        "tools/call" "not_a_tool" none none =
      ⟨.rpcError (-32601) ("Tool not found: " ++ "not_a_tool"), false, []⟩ ∧
    handle_mcp_request
        ⟨["create_presentation"], [], none, false, true, true, false⟩
        "foo/bar" "not_a_tool" none none =
      ⟨.rpcError (-32601) ("Method not found: " ++ "foo/bar"), false, []⟩ :=
  c5_unknown_tool_or_method
    ⟨["create_presentation"], [], none, false, true, true, false⟩
    "not_a_tool" "foo/bar" none none (by decide) (by decide) (by decide)
    (by decide)

theorem invokeAndFinish_ok_resp (ctx : DispatchCtx) (toolName : String)
    (localPath? : Option String) (scratch : List String)
    (hraise : ctx.toolRaises = none) (hupload : ctx.uploadOk = true) :
    (invokeAndFinish ctx toolName localPath? scratch).resp.isError = false := by
  unfold invokeAndFinish
  rw [hraise]
  simp only [hupload, if_true]
  split
  · rfl
  · split
    · rfl
    · rfl

theorem stageFilePath_error_shape (ctx : DispatchCtx) (toolName : String)
    (filePath? : Option String) (out : DispatchOut)
    (h : stageFilePath ctx toolName filePath? = .error out) :
    out.invoked = false := by
  unfold stageFilePath at h
  rcases filePath? with _ | fp
  · cases h
  · by_cases h1 : ctx.storage.contains (forcePptx (pyBasename fp)) = true
    · simp only [h1, if_true] at h
      cases h
    · have h1' : ctx.storage.contains (forcePptx (pyBasename fp)) = false :=
        by
        cases hx : ctx.storage.contains (forcePptx (pyBasename fp))
        · rfl
        · exact absurd hx h1
      by_cases h2 : create_if_missing toolName = true
      · simp only [h1', Bool.false_eq_true, if_false, h2, if_true] at h
        cases h
      · have h2' : create_if_missing toolName = false := by
          cases hx : create_if_missing toolName
          · rfl
          · exact absurd hx h2
        simp only [h1', Bool.false_eq_true, if_false, h2', if_true] at h
        cases h
        rfl

/-- C2 (as stated, refuted): invocation of `open_presentation` succeeds
(`toolRaises = none` and the invocation step was reached), yet because the
post-invocation upload of the staged `deck.pptx` fails, the response is an
error envelope rather than a success one. -/
theorem c2_counterexample :
    (⟨["open_presentation"], ["deck.pptx"], none, false, false, true,
        false⟩ : DispatchCtx).toolRaises = none ∧
    (handle_mcp_request
        ⟨["open_presentation"], ["deck.pptx"], none, false, false, true,
          false⟩
        "tools/call" "open_presentation" (some "deck.pptx") none).invoked
      = true ∧
    (handle_mcp_request
        ⟨["open_presentation"], ["deck.pptx"], none, false, false, true,
          false⟩
        "tools/call" "open_presentation" (some "deck.pptx") none).resp.isError
      = true := by
  refine ⟨rfl, ?_, ?_⟩ <;> rfl

/-- C2 amended: failures inside the auto-save block are swallowed — when
the tool invocation returns normally and the storage uploads outside that
block succeed, the response is a success envelope whatever the auto-save
block does; but a failing post-invocation upload is not swallowed (see the
counterexample). -/
theorem c2_amended_autosave_failures_swallowed (ctx : DispatchCtx)
    (toolName : String) (fp tp : Option String)
    (hraise : ctx.toolRaises = none) (hupload : ctx.uploadOk = true) :
    (handle_mcp_request ctx "tools/call" toolName fp tp).invoked = true →
    (handle_mcp_request ctx "tools/call" toolName fp tp).resp.isError
      = false := by
  intro hinv
  unfold handle_mcp_request at hinv ⊢
  rw [if_neg (by decide), if_neg (by decide), if_pos rfl] at hinv ⊢
  unfold handleToolsCall at hinv ⊢
  by_cases hreg : ctx.registry.contains toolName = true
  · rw [hreg] at hinv ⊢
    simp only [Bool.not_true, Bool.false_eq_true, if_false] at hinv ⊢
    rcases hsf : stageFilePath ctx toolName fp with out | ⟨lp?, staged, s0⟩
    · rw [hsf] at hinv
      rw [stageFilePath_error_shape ctx toolName fp out hsf] at hinv
      cases hinv
    · exact invokeAndFinish_ok_resp ctx toolName lp? _ hraise hupload
  · have hreg' : ctx.registry.contains toolName = false := by
      cases hx : ctx.registry.contains toolName
      · rfl
      · exact absurd hx hreg
    rw [hreg'] at hinv
    simp only [Bool.not_false, if_true] at hinv
    cases hinv

/-- C2 amended witness: an `add_slide` call whose auto-save block fails
(`autoSaveOk = false`) still receives a success envelope. -/
theorem c2_witness :
    (handle_mcp_request ⟨["add_slide"], [], none, false, true, false, true⟩
        "tools/call" "add_slide" none none).resp.isError = false :=
  c2_amended_autosave_failures_swallowed
    ⟨["add_slide"], [], none, false, true, false, true⟩
    "add_slide" none none rfl rfl rfl

theorem invokeAndFinish_scratch_not_mem (ctx : DispatchCtx) (t fb : String)
    (s : List String) :
    fb ∉ (invokeAndFinish ctx t (some fb) s).scratchAfter := by
  unfold invokeAndFinish
  cases hr : ctx.toolRaises with
  | some msg => exact not_mem_finallyCleanup fb s
  | none =>
    dsimp only
    repeat' split
    all_goals exact not_mem_finallyCleanup _ _

/-- C3 (as stated, refuted): a successful
`create_presentation_from_template` call whose `template_path` was staged
from storage leaves the staged template file in the scratch directory
after the response is returned. -/
theorem c3_counterexample :
    (handle_mcp_request
        ⟨["create_presentation_from_template"], ["tmpl.pptx"], none, false,
          true, true, false⟩
        "tools/call" "create_presentation_from_template" none
        (some "tmpl.pptx")).resp.isError = false ∧
    (handle_mcp_request
        ⟨["create_presentation_from_template"], ["tmpl.pptx"], none, false,
          true, true, false⟩
        "tools/call" "create_presentation_from_template" none
        (some "tmpl.pptx")).scratchAfter = ["tmpl.pptx"] :=
  ⟨rfl, rfl⟩

/-- C3 amended: the cleanup invariant holds for the `file_path` staging
only — on every terminal path the file staged for the `file_path` argument
is absent from the scratch directory afterwards; a file staged for
`template_path` is not removed (see the counterexample). -/
theorem c3_amended_file_path_staging_cleaned (ctx : DispatchCtx)
    (toolName fp : String) (tp : Option String) :
    forcePptx (pyBasename fp) ∉
      (handle_mcp_request ctx "tools/call" toolName (some fp)
        tp).scratchAfter := by
  unfold handle_mcp_request
  rw [if_neg (by decide), if_neg (by decide), if_pos rfl]
  unfold handleToolsCall
  by_cases hreg : ctx.registry.contains toolName = true
  · rw [hreg]
    simp only [Bool.not_true, Bool.false_eq_true, if_false]
    unfold stageFilePath
    by_cases h1 : ctx.storage.contains (forcePptx (pyBasename fp)) = true
    · simp only [h1, if_true]
      exact invokeAndFinish_scratch_not_mem ctx toolName _ _
    · have h1' : ctx.storage.contains (forcePptx (pyBasename fp)) = false :=
        by
        cases hx : ctx.storage.contains (forcePptx (pyBasename fp))
        · rfl
        · exact absurd hx h1
      by_cases h2 : create_if_missing toolName = true
      · simp only [h1', Bool.false_eq_true, if_false, h2, if_true]
        exact invokeAndFinish_scratch_not_mem ctx toolName _ _
      · have h2' : create_if_missing toolName = false := by
          cases hx : create_if_missing toolName
          · rfl
          · exact absurd hx h2
        simp only [h1', Bool.false_eq_true, if_false, h2', if_true]
        simp
  · have hreg' : ctx.registry.contains toolName = false := by
      cases hx : ctx.registry.contains toolName
      · rfl
      · exact absurd hx hreg
    rw [hreg']
    simp

/-- C7: `create_presentation` with `id="deck1"` and `title="Hello"`, in
any session state, reports `presentation_id = "deck1"`, a slide count of
at least 1 and `title_applied = true`. -/
theorem c7_create_presentation_scenario (st : SessionState) :
    (create_presentation st
      ⟨some "deck1", none, some "Hello", none, true, true⟩).1.presentation_id
      = "deck1" ∧
    1 ≤ (create_presentation st
      ⟨some "deck1", none, some "Hello", none, true, true⟩).1.slide_count ∧
    (create_presentation st
      ⟨some "deck1", none, some "Hello", none, true, true⟩).1.title_applied
      = true := by
  refine ⟨rfl, ?_, rfl⟩
  exact Nat.le_refl 1

/-- C8 (as stated, refuted): two successive `create_presentation` calls
with the caller-supplied id `deck1` do not bind two distinct keys — the
second silently rebinds the existing session's handle (the stored
document is the one created by the second call, which added a title
slide). -/
theorem c8_counterexample :
    ((create_presentation ⟨[], none⟩
        ⟨some "deck1", none, none, none, true, true⟩).2).store
      = [("deck1", ⟨0⟩)] ∧
    ((create_presentation
        (create_presentation ⟨[], none⟩
          ⟨some "deck1", none, none, none, true, true⟩).2
        ⟨some "deck1", none, some "Hello", none, true, true⟩).2).store
      = [("deck1", ⟨1⟩)] :=
  ⟨rfl, rfl⟩

/-- C8 amended: each create/open operation binds the key `id` when
supplied, else `presentation_<store size + 1>`; a fresh key is appended as
a new distinct binding, but a key already present is silently rebound to
the new handle — uniqueness is not enforced. -/
theorem c8_amended_binding_characterization :
    (∀ (st : SessionState) (args : CreateArgs),
      ((create_presentation st args).2.store.map Prod.fst =
        if storeHasKey st.store (args.id?.getD (genId st.store)) then
          st.store.map Prod.fst
        else st.store.map Prod.fst ++ [args.id?.getD (genId st.store)]) ∧
      storeLookup (create_presentation st args).2.store
          (args.id?.getD (genId st.store)) =
        some (if pyTruthy args.title? || pyTruthy args.subtitle? then
          pptAddSlide pptCreatePresentation else pptCreatePresentation)) ∧
    (∀ (st : SessionState) (p : Pres) (fp : String) (id? : Option String),
      ((open_presentation st true (.ok p) fp id?).2.store.map Prod.fst =
        if storeHasKey st.store (id?.getD (genId st.store)) then
          st.store.map Prod.fst
        else st.store.map Prod.fst ++ [id?.getD (genId st.store)]) ∧
      storeLookup (open_presentation st true (.ok p) fp id?).2.store
          (id?.getD (genId st.store)) = some p) := by
  constructor
  · intro st args
    constructor
    · exact pyDictSet_map_fst st.store _ _
    · exact pyDictGet?_set_self st.store _ _
  · intro st p fp id?
    constructor
    · exact pyDictSet_map_fst st.store _ _
    · exact pyDictGet?_set_self st.store _ _

/-- C9: when the file does not exist, or the document library raises,
`open_presentation` returns a dict with an `"error"` key and leaves the
session store (and the whole session state) unchanged. -/
theorem c9_open_presentation_error_atomic (st : SessionState)
    (fileExists : Bool) (openResult : Except String Pres) (fp : String)
    (id? : Option String)
    (h : fileExists = false ∨ ∃ e, openResult = Except.error e) :
    (open_presentation st fileExists openResult fp id?).1.isError = true ∧
    (open_presentation st fileExists openResult fp id?).2 = st := by
  rcases h with h | ⟨e, h⟩
  · subst h
    exact ⟨rfl, rfl⟩
  · subst h
    cases fileExists
    · exact ⟨rfl, rfl⟩
    · exact ⟨rfl, rfl⟩

/-- C9 witness: opening a missing `missing.pptx` errors and leaves the
empty session state untouched. -/
theorem c9_witness :
    (open_presentation ⟨[], none⟩ false (.ok ⟨0⟩) "missing.pptx"
      none).1.isError = true ∧
    (open_presentation ⟨[], none⟩ false (.ok ⟨0⟩) "missing.pptx" none).2
      = ⟨[], none⟩ :=
  c9_open_presentation_error_atomic ⟨[], none⟩ false (.ok ⟨0⟩) "missing.pptx"
    none (Or.inl rfl)

/-- C10 (as stated, refuted): three shapes named `Box`, `Box 2`, `Box`
give base roles `box`, `box_2`, `box`; the dedup loop renames the third
element to `box_2`, which collides with the second element's base role, so
the exported roles are not pairwise distinct. -/
theorem c10_counterexample :
    exportRoles [⟨"Box", none⟩, ⟨"Box 2", none⟩, ⟨"Box", none⟩]
      = ["box", "box_2", "box_2"] ∧
    ¬ (exportRoles [⟨"Box", none⟩, ⟨"Box 2", none⟩,
        ⟨"Box", none⟩]).Nodup := by
  constructor
  · rfl
  · intro h
    have h2 : (["box", "box_2", "box_2"] : List String).Nodup := by
      have e : exportRoles [⟨"Box", none⟩, ⟨"Box 2", none⟩, ⟨"Box", none⟩]
          = ["box", "box_2", "box_2"] := rfl
      rw [e] at h
      exact h
    simp at h2

/-- C10 amended: the first element with a given base role keeps it, and
the k-th subsequent element with the same base role is renamed with the
suffix `_<k+1>` (strictly increasing): the produced role list equals the
count-based description `dedupSpec`. Distinctness is only guaranteed
within one base role's family; across families a renamed role can collide
with another element's base role (see the counterexample). -/
theorem c10_amended_suffix_characterization (shapes : List PShape) :
    exportRoles shapes =
      dedupSpec [] (shapes.mapIdx (fun i s => shape_role s (i + 1))) := by
  unfold exportRoles
  exact dedupRoles_eq_spec _ [] [] (fun r => rfl)
